import Mathlib

/-
Verification of the steel-browser devtools proxy route, the session-playground
schema resolver, the environment schema, and the task-status poller, as a
shallow embedding of the TypeScript sources.
-/

namespace SteelBrowser

/-- JavaScript `String.prototype.replace` with a string pattern replaces only
the first occurrence of the pattern; scanning helper over character lists. -/
def replaceFirstAux (pat repl : List Char) : List Char → List Char
  | [] => []
  | c :: rest =>
    if pat.isPrefixOf (c :: rest) then repl ++ (c :: rest).drop pat.length
    else c :: replaceFirstAux pat repl rest

/-- JavaScript `s.replace(pat, repl)` for string `pat`: replace the first
occurrence only; an empty pattern inserts `repl` at the start. -/
def replaceFirst (s pat repl : String) : String :=
  if pat.data = [] then repl ++ s
  else ⟨replaceFirstAux pat.data repl.data s.data⟩

/-- JavaScript `String.prototype.startsWith`. -/
def strStartsWith (s pat : String) : Bool :=
  pat.data.isPrefixOf s.data

/-- JavaScript `String.prototype.endsWith`. -/
def strEndsWith (s pat : String) : Bool :=
  pat.data.isSuffixOf s.data

/-- `new URLSearchParams(query).toString()`: the parsed query object rendered
back as `k=v` pairs joined by `&`. -/
def queryToString (q : List (String × String)) : String :=
  String.intercalate "&" (q.map (fun kv => kv.1 ++ "=" ++ kv.2))

/-- JavaScript `v || d` on an optional string: the default replaces a
missing or empty (falsy) value. -/
def jsOrDefault (v : Option String) (d : String) : String :=
  match v with
  | some s => if s == "" then d else s
  | none => d

/-- An inbound HTTP request to the devtools proxy route, as Fastify hands it
to the handler: the URL path, the parsed query parameters, the method, the
three headers the handler reads, and the body. -/
structure ProxyRequest where
  path : String
  query : List (String × String)
  method : String
  userAgent : Option String
  accept : Option String
  contentType : Option String
  body : Option String

/-- Fastify's `request.url`: the raw inbound URL, i.e. the path followed by
the serialized query string when one is present. -/
def requestUrl (req : ProxyRequest) : String :=
  if queryToString req.query = "" then req.path
  else req.path ++ "?" ++ queryToString req.query

/-- UTF-8 encoding of one code point. -/
def utf8EncodeChar (c : Nat) : List Nat :=
  if c < 0x80 then [c]
  else if c < 0x800 then [0xC0 + c / 64, 0x80 + c % 64]
  else if c < 0x10000 then [0xE0 + c / 4096, 0x80 + (c / 64) % 64, 0x80 + c % 64]
  else [0xF0 + c / 262144, 0x80 + (c / 4096) % 64, 0x80 + (c / 64) % 64, 0x80 + c % 64]

/-- UTF-8 encoding of a sequence of code points. -/
def utf8Encode (cs : List Nat) : List Nat :=
  cs.foldr (fun c acc => utf8EncodeChar c ++ acc) []

/-- The WHATWG UTF-8 decoder with replacement (the decoder behind
`response.text()`): state is the partial code point, the bytes seen, the
bytes needed, and the current lower/upper continuation boundaries. Invalid
bytes decode to U+FFFD; an invalid continuation byte is reprocessed from the
initial state. -/
def utf8DecodeLoop : Nat → Nat → Nat → Nat → Nat → List Nat → List Nat
  | _, _, needed, _, _, [] => if needed = 0 then [] else [0xFFFD]
  | cp, seen, needed, lo, hi, b :: rest =>
    if needed = 0 then
      if b ≤ 0x7F then b :: utf8DecodeLoop 0 0 0 0x80 0xBF rest
      else if 0xC2 ≤ b ∧ b ≤ 0xDF then utf8DecodeLoop (b % 32) 0 1 0x80 0xBF rest
      else if 0xE0 ≤ b ∧ b ≤ 0xEF then
        utf8DecodeLoop (b % 16) 0 2 (if b = 0xE0 then 0xA0 else 0x80)
          (if b = 0xED then 0x9F else 0xBF) rest
      else if 0xF0 ≤ b ∧ b ≤ 0xF4 then
        utf8DecodeLoop (b % 8) 0 3 (if b = 0xF0 then 0x90 else 0x80)
          (if b = 0xF4 then 0x8F else 0xBF) rest
      else 0xFFFD :: utf8DecodeLoop 0 0 0 0x80 0xBF rest
    else
      if lo ≤ b ∧ b ≤ hi then
        if seen + 1 = needed then
          (cp * 64 + b % 64) :: utf8DecodeLoop 0 0 0 0x80 0xBF rest
        else utf8DecodeLoop (cp * 64 + b % 64) (seen + 1) needed 0x80 0xBF rest
      else
        -- the invalid continuation byte is reprocessed from the initial
        -- state; the initial-state step is unrolled inline so the
        -- recursion is structural on the byte list
        0xFFFD ::
          (if b ≤ 0x7F then b :: utf8DecodeLoop 0 0 0 0x80 0xBF rest
           else if 0xC2 ≤ b ∧ b ≤ 0xDF then utf8DecodeLoop (b % 32) 0 1 0x80 0xBF rest
           else if 0xE0 ≤ b ∧ b ≤ 0xEF then
             utf8DecodeLoop (b % 16) 0 2 (if b = 0xE0 then 0xA0 else 0x80)
               (if b = 0xED then 0x9F else 0xBF) rest
           else if 0xF0 ≤ b ∧ b ≤ 0xF4 then
             utf8DecodeLoop (b % 8) 0 3 (if b = 0xF0 then 0x90 else 0x80)
               (if b = 0xF4 then 0x8F else 0xBF) rest
           else 0xFFFD :: utf8DecodeLoop 0 0 0 0x80 0xBF rest)

/-- WHATWG "UTF-8 decode" as performed by `response.text()`: strip a leading
byte-order mark, then decode with replacement; the result is the sequence of
code points of the JavaScript string. -/
def textDecodeUTF8 (bytes : List Nat) : List Nat :=
  match bytes with
  | 0xEF :: 0xBB :: 0xBF :: rest => utf8DecodeLoop 0 0 0 0x80 0xBF rest
  | _ => utf8DecodeLoop 0 0 0 0x80 0xBF bytes

/-- Bytes of an ASCII/Unicode string as Node writes it on the wire (UTF-8). -/
def strToBytes (s : String) : List Nat :=
  utf8Encode (s.data.map Char.toNat)

/-- The body bytes the client receives when the handler runs
`reply.send(await response.text())`: the upstream bytes are decoded as UTF-8
text (lossily) and the resulting string is re-encoded as UTF-8. -/
def relayedBody (upstreamBody : List Nat) : List Nat :=
  utf8Encode (textDecodeUTF8 upstreamBody)

/-- The upstream response observed by the handler's `fetch` call. -/
structure UpstreamResponse where
  status : Nat
  contentType : Option String
  body : List Nat

/-- The outbound request the handler builds for `fetch(targetUrl, {...})`. -/
structure OutboundRequest where
  url : String
  method : String
  userAgent : String
  accept : String
  contentType : String
  body : Option String
deriving DecidableEq

/-- What the handler replies with: a redirect (Fastify `reply.redirect`,
status 302), a proxied upstream response, or the caught-error 500 reply. -/
inductive HandlerResult where
  | redirect (location : String)
  | proxied (outbound : OutboundRequest) (status : Nat) (contentType : String) (body : List Nat)
  | proxyError (outbound : OutboundRequest) (status : Nat) (body : List Nat)
deriving DecidableEq

/-- The viewer-root redirect condition of the handler:
`originalPath.endsWith("devtools_app.html") && queryStr === ""` where
`originalPath = request.url` and `queryStr` is the serialized query. -/
def viewerRedirectCond (req : ProxyRequest) : Bool :=
  strEndsWith (requestUrl req) "devtools_app.html" && (queryToString req.query == "")

/-- The outbound request of the general case: target URL
`debuggerUrl + originalPath.replace("/v1/devtools/", "")`, the inbound
method, the three headers with their source `||` fallbacks (JS `||` fires
on a missing and on an empty header value alike), and the inbound body. -/
def mkOutbound (debuggerUrl : String) (req : ProxyRequest) : OutboundRequest :=
  ⟨debuggerUrl ++ replaceFirst (requestUrl req) "/v1/devtools/" "",
   req.method,
   jsOrDefault req.userAgent "",
   jsOrDefault req.accept "*/*",
   jsOrDefault req.contentType "",
   req.body⟩

/-- The devtools proxy handler (the `server.all("/devtools/*", ...)` handler,
operation id `getDevtoolsUrl`). `debuggerUrl` is
`server.cdpService.getDebuggerUrl()` and `wsUrl` is
`server.cdpService.getDebuggerWsUrl(request.query.pageId)`; `upstream` is the
outcome of the `fetch` to the target URL, `none` meaning the fetch threw (the
`catch` branch replies 500 "Proxy error" instead of crashing). -/
def getDevtoolsUrl (debuggerUrl wsUrl : String) (req : ProxyRequest)
    (upstream : Option UpstreamResponse) : HandlerResult :=
  if viewerRedirectCond req then
    HandlerResult.redirect (requestUrl req ++ "?ws=" ++ replaceFirst wsUrl "ws:" "")
  else
    match upstream with
    | some u =>
        HandlerResult.proxied (mkOutbound debuggerUrl req) u.status
          (jsOrDefault u.contentType "text/html") (relayedBody u.body)
    | none =>
        HandlerResult.proxyError (mkOutbound debuggerUrl req) 500 (strToBytes "Proxy error")

/-- The HTTP status of a handler result (a Fastify redirect is 302). -/
def statusOf : HandlerResult → Option Nat
  | .redirect _ => some 302
  | .proxied _ st _ _ => some st
  | .proxyError _ st _ => some st

/-- The URL the handler fetched, when it fetched one. -/
def targetOf : HandlerResult → Option String
  | .redirect _ => none
  | .proxied ob _ _ _ => some ob.url
  | .proxyError ob _ _ => some ob.url

/-- The body of a non-redirect handler result. -/
def bodyOf : HandlerResult → Option (List Nat)
  | .redirect _ => none
  | .proxied _ _ _ b => some b
  | .proxyError _ _ b => some b

/-- Whether the handler replied with a redirect. -/
def isRedirect : HandlerResult → Bool
  | .redirect _ => true
  | _ => false

/-- Modelled from the spec: `cdpService.getDebuggerWsUrl` lives in
`api/src/services/cdp/cdp.service.ts`, which is not under the provided
sources. Per the spec it returns the page's debugger WebSocket URL "with
host/port rewritten to the externally visible address": scheme `ws://`, the
externally visible host and port, and the page's debugger path. -/
def getDebuggerWsUrl (externalHostPort pagePath : String) : String :=
  "ws://" ++ (externalHostPort ++ pagePath)

/-- The `$ref` pointer root the playground resolves:
the literal `#/components/schemas/` of `resolveSchemaRef`. -/
def refPfx : String := "#/components/schemas/"

/-- An OpenAPI JSON schema value, restricted to the fields `resolveSchemaRef`
reads: `$ref`, `properties`, `items`, `anyOf`, `oneOf`, `allOf`. `Option`
captures JavaScript truthiness of a present-vs-absent field (an empty
`properties` object is present, hence `some []`). -/
inductive JSchema where
  | mk : Option String → Option (List (String × JSchema)) → Option JSchema →
      Option (List JSchema) → Option (List JSchema) → Option (List JSchema) → JSchema

/-- The `$ref` field. -/
def JSchema.ref : JSchema → Option String
  | .mk r _ _ _ _ _ => r

/-- The `properties` field. -/
def JSchema.properties : JSchema → Option (List (String × JSchema))
  | .mk _ p _ _ _ _ => p

/-- The `components.schemas` object of an OpenAPI document. -/
structure SchemaComponents where
  schemas : Option (List (String × JSchema))

/-- The OpenAPI document fields consulted by `resolveSchemaRef`
(`openapiSchema.components?.schemas`). -/
structure OpenAPISchema where
  components : Option SchemaComponents

/-- `openapiSchema.components?.schemas?.[schemaName]`. -/
def lookupSchema (api : OpenAPISchema) (name : String) : Option JSchema :=
  match api.components with
  | some comps =>
    match comps.schemas with
    | some l => l.lookup name
    | none => none
  | none => none

/-- The `$ref` of a schema when it points into `#/components/schemas/`; the
guard of the ref-resolution branch of `resolveSchemaRef`. -/
def refComponentOf (s : JSchema) : Option String :=
  match s.ref with
  | some r => if strStartsWith r refPfx then some r else none
  | none => none

/-- All component ref paths of the document (used only by the termination
measure of `resolveSchemaRef`). -/
def refKeys (api : OpenAPISchema) : List String :=
  match api.components with
  | some comps =>
    match comps.schemas with
    | some l => l.map (fun kv => refPfx ++ kv.1)
    | none => []
  | none => []

/-- How many component ref paths are not yet in the visited set (termination
measure helper). -/
def unvisitedCount (api : OpenAPISchema) (visited : List String) : Nat :=
  ((refKeys api).filter (fun r => !(visited.contains r))).length

/-- 1 when the schema's own `$ref` is a not-yet-visited component pointer
(termination measure helper). -/
def refFlag (s : JSchema) (visited : List String) : Nat :=
  match refComponentOf s with
  | some r => if visited.contains r then 0 else 1
  | none => 0

/-- Termination measure for `resolveSchemaRef`: unvisited component refs
dominate (weighted past any component's size), then the schema size, then
whether the schema itself is an unvisited ref. -/
noncomputable def rsMeasure (s : JSchema) (api : Option OpenAPISchema)
    (visited : List String) : Nat :=
  match api with
  | none => 0
  | some a =>
    2 * (sizeOf a + 2) * unvisitedCount a visited + 2 * sizeOf s + refFlag s visited

/-- A successful association-list lookup produces a member pair. -/
theorem lookup_mem {α β : Type} [BEq α] [LawfulBEq α] (l : List (α × β)) (k : α) (v : β)
    (h : l.lookup k = some v) : (k, v) ∈ l := by
  induction l with
  | nil => simp [List.lookup] at h
  | cons a t ih =>
    obtain ⟨ka, va⟩ := a
    rw [List.lookup] at h
    cases hbeq : (k == ka) with
    | true =>
      rw [hbeq] at h
      simp only [Option.some.injEq] at h
      have hk : k = ka := eq_of_beq hbeq
      subst hk
      subst h
      exact List.mem_cons_self _ _
    | false =>
      rw [hbeq] at h
      exact List.mem_cons_of_mem _ (ih h)

/-- A failed association-list lookup means no key of the list matches. -/
theorem lookup_none {α β : Type} [BEq α] [LawfulBEq α] (l : List (α × β)) (k : α)
    (h : l.lookup k = none) : ∀ p ∈ l, p.1 ≠ k := by
  induction l with
  | nil => intro p hp; cases hp
  | cons a t ih =>
    obtain ⟨ka, va⟩ := a
    rw [List.lookup] at h
    cases hbeq : (k == ka) with
    | true => rw [hbeq] at h; cases h
    | false =>
      rw [hbeq] at h
      intro p hp
      rcases List.mem_cons.mp hp with hp | hp
      · subst hp
        intro hk
        have hk2 : ka = k := hk
        rw [hk2] at hbeq
        simp at hbeq
      · exact ih h p hp

/-- Adding a member of the list to the visited set strictly shrinks the
unvisited filter. -/
theorem length_filter_visited_lt (l : List String) (r : String) (visited : List String)
    (hm : r ∈ l) (hv : ¬ r ∈ visited) :
    (l.filter (fun x => !((r :: visited).contains x))).length <
      (l.filter (fun x => !(visited.contains x))).length := by
  induction l with
  | nil => cases hm
  | cons a t ih =>
    by_cases har : a = r
    · subst har
      have hnew : (!((a :: visited).contains a)) = false := by
        simp [List.contains_cons]
      have hold : (!(visited.contains a)) = true := by
        simp [hv]
      rw [List.filter_cons, List.filter_cons, hnew, hold]
      have hsub : (t.filter (fun x => !((a :: visited).contains x))).length ≤
          (t.filter (fun x => !(visited.contains x))).length := by
        apply List.Sublist.length_le
        apply List.monotone_filter_right
        intro x hx
        simp only [List.contains_cons, Bool.not_eq_true', Bool.or_eq_false_iff] at hx
        simpa using hx.2
      simpa using Nat.lt_succ_of_le hsub
    · have hm' : r ∈ t := by
        rcases List.mem_cons.mp hm with h | h
        · exact absurd h.symm har
        · exact h
      have heq : (!((r :: visited).contains a)) = (!(visited.contains a)) := by
        simp [List.contains_cons, har]
      rw [List.filter_cons, List.filter_cons, heq]
      cases hca : (!(visited.contains a)) with
      | true => simpa using Nat.succ_lt_succ (ih hm')
      | false => simpa using ih hm'

/-- Adding a non-member of the list to the visited set leaves the unvisited
filter unchanged. -/
theorem filter_visited_eq (l : List String) (r : String) (visited : List String)
    (hm : ¬ r ∈ l) :
    l.filter (fun x => !((r :: visited).contains x)) =
      l.filter (fun x => !(visited.contains x)) := by
  apply List.filter_congr
  intro x hx
  have hxr : ¬ x = r := fun h => hm (h ▸ hx)
  simp [List.contains_cons, hxr]

/-- The ref flag is at most one. -/
theorem refFlag_le_one (s : JSchema) (visited : List String) : refFlag s visited ≤ 1 := by
  unfold refFlag
  split
  · split <;> omega
  · omega

/-- A schema without a component ref has flag zero. -/
theorem refFlag_eq_zero (s : JSchema) (visited : List String)
    (h : refComponentOf s = none) : refFlag s visited = 0 := by
  unfold refFlag
  rw [h]

/-- A schema whose component ref is unvisited has flag one. -/
theorem refFlag_eq_one (s : JSchema) (visited : List String) (r : String)
    (h : refComponentOf s = some r) (hv : visited.contains r = false) :
    refFlag s visited = 1 := by
  unfold refFlag
  rw [h]
  have hm : ¬ r ∈ visited := by simpa using hv
  simp [hm]

/-- Marking a schema's own component ref visited zeroes its flag. -/
theorem refFlag_cons_zero (s : JSchema) (visited : List String) (r : String)
    (h : refComponentOf s = some r) : refFlag s (r :: visited) = 0 := by
  unfold refFlag
  rw [h]
  simp [List.contains_cons]

/-- A found component ref is the schema's own prefixed ref. -/
theorem refComponentOf_some (s : JSchema) (r : String)
    (h : refComponentOf s = some r) :
    s.ref = some r ∧ strStartsWith r refPfx = true := by
  unfold refComponentOf at h
  split at h
  · next r2 heq =>
    split at h
    · next hpfx =>
      cases h
      exact ⟨heq, hpfx⟩
    · cases h
  · cases h

/-- Scanning for a pattern that sits at the start matches immediately. -/
theorem replaceFirstAux_append (c : Char) (p t : List Char) :
    replaceFirstAux (c :: p) [] ((c :: p) ++ t) = t := by
  rw [List.cons_append, replaceFirstAux, if_pos]
  · simp only [List.nil_append, List.length_cons, List.drop_succ_cons]
    exact List.drop_left p t
  · rw [← List.cons_append]
    exact List.isPrefixOf_iff_prefix.mpr (List.prefix_append _ _)

/-- A component pointer splits into the root and the looked-up name: the
source computes `schemaName = refPath.replace(refPfx, "")` and this name
prefixed with the root recovers `refPath`. -/
theorem refPfx_append_replaceFirst (r : String) (h : strStartsWith r refPfx = true) :
    refPfx ++ replaceFirst r refPfx "" = r := by
  unfold strStartsWith at h
  obtain ⟨t, ht⟩ := List.isPrefixOf_iff_prefix.mp h
  unfold replaceFirst
  rw [if_neg (by decide)]
  have haux : replaceFirstAux refPfx.data ("" : String).data r.data = t := by
    rw [← ht]
    have hcons : refPfx.data = '#' :: refPfx.data.tail := by rfl
    rw [hcons]
    exact replaceFirstAux_append '#' refPfx.data.tail t
  rw [haux]
  apply String.ext
  have hd : (refPfx ++ String.mk t).data = refPfx.data ++ t := by
    simp [String.data_append]
  rw [hd, ht]

/-- Prepending the same string is injective. -/
theorem string_append_left_cancel (a b c : String) (h : a ++ b = a ++ c) : b = c := by
  have hd := congrArg String.data h
  simp only [String.data_append] at hd
  exact String.ext (List.append_cancel_left hd)

/-- A successful component lookup shrinks the unvisited count when its ref
path is newly visited. -/
theorem unvisitedCount_lt_of_lookup (api : OpenAPISchema) (r : String) (visited : List String)
    (hpfx : strStartsWith r refPfx = true)
    (hv : ¬ r ∈ visited) (s : JSchema)
    (hlook : lookupSchema api (replaceFirst r refPfx "") = some s) :
    unvisitedCount api (r :: visited) < unvisitedCount api visited := by
  unfold unvisitedCount
  apply length_filter_visited_lt _ _ _ _ hv
  unfold lookupSchema at hlook
  unfold refKeys
  split at hlook
  · split at hlook
    · have hm := lookup_mem _ _ _ hlook
      have h2 := List.mem_map_of_mem (fun kv => refPfx ++ kv.1) hm
      simpa [refPfx_append_replaceFirst r hpfx] using h2
    · exact Option.noConfusion hlook
  · exact Option.noConfusion hlook

/-- A failed component lookup leaves the unvisited count unchanged when its
ref path is added to the visited set. -/
theorem unvisitedCount_eq_of_lookup_none (api : OpenAPISchema) (r : String) (visited : List String)
    (hpfx : strStartsWith r refPfx = true)
    (hlook : lookupSchema api (replaceFirst r refPfx "") = none) :
    unvisitedCount api (r :: visited) = unvisitedCount api visited := by
  have hnot : ¬ r ∈ refKeys api := by
    unfold lookupSchema at hlook
    unfold refKeys
    split at hlook
    · split at hlook
      · intro hmem
        rcases List.mem_map.mp hmem with ⟨kv, hkv, heqr⟩
        have hne := lookup_none _ _ hlook kv hkv
        apply hne
        exact string_append_left_cancel refPfx _ _
          (heqr.trans (refPfx_append_replaceFirst r hpfx).symm)
      · simp
    · simp
  unfold unvisitedCount
  rw [filter_visited_eq _ _ _ hnot]

/-- The looked-up component schema is smaller than the whole document. -/
theorem sizeOf_lookupSchema (api : OpenAPISchema) (name : String) (s : JSchema)
    (h : lookupSchema api name = some s) : sizeOf s < sizeOf api := by
  rcases api with ⟨co⟩
  cases co with
  | none => simp [lookupSchema] at h
  | some comps =>
    rcases comps with ⟨sch⟩
    cases sch with
    | none => simp [lookupSchema] at h
    | some l =>
      simp only [lookupSchema] at h
      have hm := lookup_mem _ _ _ h
      have h1 := List.sizeOf_lt_of_mem hm
      simp only [Prod.mk.sizeOf_spec] at h1
      simp only [OpenAPISchema.mk.sizeOf_spec, SchemaComponents.mk.sizeOf_spec,
        Option.some.sizeOf_spec]
      omega

/-- Structural descent strictly decreases the measure (the parent has flag
zero because its ref branch was not taken). -/
theorem rsMeasure_struct_lt {s' s : JSchema} {api : OpenAPISchema} {visited : List String}
    (hσ : sizeOf s' < sizeOf s) (hflag : refFlag s visited = 0) :
    rsMeasure s' (some api) visited < rsMeasure s (some api) visited := by
  simp only [rsMeasure]
  have h1 : refFlag s' visited ≤ 1 := refFlag_le_one _ _
  rw [hflag]
  omega

/-- Following a found component ref strictly decreases the measure: the
unvisited count drops and the new schema is bounded by the document size. -/
theorem rsMeasure_comp_lt {s' s : JSchema} {api : OpenAPISchema} {r : String}
    {visited : List String}
    (hu : unvisitedCount api (r :: visited) < unvisitedCount api visited)
    (hσ : sizeOf s' < sizeOf api) :
    rsMeasure s' (some api) (r :: visited) < rsMeasure s (some api) visited := by
  simp only [rsMeasure]
  have hf' : refFlag s' (r :: visited) ≤ 1 := refFlag_le_one _ _
  have hstep : 2 * (sizeOf api + 2) * unvisitedCount api (r :: visited) +
      2 * sizeOf s' + refFlag s' (r :: visited) <
      2 * (sizeOf api + 2) * (unvisitedCount api (r :: visited) + 1) := by
    have : 2 * (sizeOf api + 2) * (unvisitedCount api (r :: visited) + 1) =
        2 * (sizeOf api + 2) * unvisitedCount api (r :: visited) +
          2 * (sizeOf api + 2) := by ring
    omega
  have hmul : 2 * (sizeOf api + 2) * (unvisitedCount api (r :: visited) + 1) ≤
      2 * (sizeOf api + 2) * unvisitedCount api visited :=
    Nat.mul_le_mul_left _ (by omega)
  omega

/-- Retrying the same schema with its ref marked visited strictly decreases
the measure: only the flag drops. -/
theorem rsMeasure_flag_lt {s : JSchema} {api : OpenAPISchema} {r : String}
    {visited : List String}
    (hu : unvisitedCount api (r :: visited) = unvisitedCount api visited)
    (hfl : refFlag s visited = 1) (hfl' : refFlag s (r :: visited) = 0) :
    rsMeasure s (some api) (r :: visited) < rsMeasure s (some api) visited := by
  simp only [rsMeasure]
  rw [hu, hfl, hfl']
  omega

/-- The `resolveSchemaRef` helper of the session playground: resolves
`#/components/schemas/` pointers against the fetched OpenAPI document,
carrying the set of refs already being expanded; a ref found in the visited
set is returned unresolved (the circular-reference cutoff), otherwise the
referenced component is resolved with the ref added to the set (and removed
afterwards — the source `Set` is mutated and then restored, so each call is
a pure function of its visited set); a schema without a component ref has
its `properties`, `items`, `anyOf`, `oneOf` or `allOf` (first present, in
that order) resolved recursively. -/
def resolveSchemaRef (schema : JSchema) (api : Option OpenAPISchema)
    (visited : List String) : JSchema :=
  match api with
  | none => schema
  | some openapi =>
    match href : refComponentOf schema with
    | some refPath =>
      if hvis : visited.contains refPath then schema
      else
        match hlook : lookupSchema openapi (replaceFirst refPath refPfx "") with
        | some resolvedSchema =>
          resolveSchemaRef resolvedSchema (some openapi) (refPath :: visited)
        | none =>
          resolveSchemaRef schema (some openapi) (refPath :: visited)
    | none =>
      match schema with
      | .mk ref props items anyOfL oneOfL allOfL =>
        match props with
        | some ps =>
          JSchema.mk ref
            (some (ps.attach.map (fun kv =>
              (kv.1.1, resolveSchemaRef kv.1.2 (some openapi) visited))))
            items anyOfL oneOfL allOfL
        | none =>
        match items with
        | some it =>
          JSchema.mk ref none (some (resolveSchemaRef it (some openapi) visited))
            anyOfL oneOfL allOfL
        | none =>
        match anyOfL with
        | some l =>
          JSchema.mk ref none none
            (some (l.attach.map (fun x => resolveSchemaRef x.1 (some openapi) visited)))
            oneOfL allOfL
        | none =>
        match oneOfL with
        | some l =>
          JSchema.mk ref none none none
            (some (l.attach.map (fun x => resolveSchemaRef x.1 (some openapi) visited)))
            allOfL
        | none =>
        match allOfL with
        | some l =>
          JSchema.mk ref none none none none
            (some (l.attach.map (fun x => resolveSchemaRef x.1 (some openapi) visited)))
        | none => schema
termination_by rsMeasure schema api visited
decreasing_by
· obtain ⟨hr, hpfx⟩ := refComponentOf_some _ _ href
  have hv : ¬ refPath ∈ visited := fun hm => hvis (by simpa using hm)
  exact rsMeasure_comp_lt
    (unvisitedCount_lt_of_lookup _ _ _ hpfx hv _ hlook)
    (sizeOf_lookupSchema _ _ _ hlook)
· obtain ⟨hr, hpfx⟩ := refComponentOf_some _ _ href
  have hfalse : visited.contains refPath = false := by simpa using hvis
  exact rsMeasure_flag_lt
    (unvisitedCount_eq_of_lookup_none _ _ _ hpfx hlook)
    (refFlag_eq_one _ _ _ href hfalse)
    (refFlag_cons_zero _ _ _ href)
· obtain ⟨⟨k1, v1⟩, hmem⟩ := kv
  apply rsMeasure_struct_lt _ (refFlag_eq_zero _ visited href)
  have h1 := List.sizeOf_lt_of_mem hmem
  simp only [Prod.mk.sizeOf_spec] at h1
  simp only [JSchema.mk.sizeOf_spec, Option.some.sizeOf_spec]
  omega
· apply rsMeasure_struct_lt _ (refFlag_eq_zero _ visited href)
  simp only [JSchema.mk.sizeOf_spec, Option.some.sizeOf_spec]
  omega
· obtain ⟨x1, hmem⟩ := x
  apply rsMeasure_struct_lt _ (refFlag_eq_zero _ visited href)
  have h1 := List.sizeOf_lt_of_mem hmem
  simp only [JSchema.mk.sizeOf_spec, Option.some.sizeOf_spec]
  omega
· obtain ⟨x1, hmem⟩ := x
  apply rsMeasure_struct_lt _ (refFlag_eq_zero _ visited href)
  have h1 := List.sizeOf_lt_of_mem hmem
  simp only [JSchema.mk.sizeOf_spec, Option.some.sizeOf_spec]
  omega
· obtain ⟨x1, hmem⟩ := x
  apply rsMeasure_struct_lt _ (refFlag_eq_zero _ visited href)
  have h1 := List.sizeOf_lt_of_mem hmem
  simp only [JSchema.mk.sizeOf_spec, Option.some.sizeOf_spec]
  omega

/-- The zod environment schema of `ui/src/env.ts`:
`z.object({ VITE_API_URL: z.string().default("/api"), VITE_WS_URL:
z.string().default("/ws"), AUTOMATION_API_URL:
z.string().default("http://127.0.0.1:8000") }).parse(input)`. A zod object
schema keeps exactly its declared keys (unknown keys are stripped) and
substitutes the default for a missing key. -/
def parseEnv (input : List (String × String)) : List (String × String) :=
  [("VITE_API_URL", (input.lookup "VITE_API_URL").getD "/api"),
   ("VITE_WS_URL", (input.lookup "VITE_WS_URL").getD "/ws"),
   ("AUTOMATION_API_URL", (input.lookup "AUTOMATION_API_URL").getD "http://127.0.0.1:8000")]

/-- Task status values of the playground's `TaskAction`. -/
inductive TaskStatus where
  | pending
  | running
  | completed
  | failed
deriving DecidableEq

/-- The fields of a fetched `TaskAction` that `fetchTaskStatus` inspects. -/
structure TaskAction where
  status : TaskStatus
  result : Option String
  error : Option String

/-- One observation of the polled endpoint: the fetch rejected (network
error, with `some msg` when the thrown value is an `Error`), the response
was not ok (so the handler throws `Failed to fetch task status: <code>`), or
it parsed to a `TaskAction`. -/
inductive FetchOutcome where
  | networkError (msg : Option String)
  | httpError (code : Nat)
  | success (data : TaskAction)

/-- The externally visible effects of one `fetchTaskStatus` run: whether the
polling interval was cleared, the argument of an `onComplete` call if one was
made, and the argument of an `onError` call if one was made. -/
structure PollStep where
  stopped : Bool
  completeCall : Option (Option String)
  errorCall : Option String

/-- The `fetchTaskStatus` callback of `SessionRunningStatus`, as a function
of one fetch outcome; `onCompletePresent` and `onErrorPresent` say whether
the optional callbacks were supplied. Mirrors: on a terminal status,
`stopPolling()` then `onComplete(data.result)` when completed, else
`onError(data.error || "Task failed")` when failed; any thrown error is
caught, reported through `onError`, and stops polling. -/
def fetchTaskStatus (onCompletePresent onErrorPresent : Bool)
    (outcome : FetchOutcome) : PollStep :=
  match outcome with
  | .success data =>
    if data.status == TaskStatus.completed || data.status == TaskStatus.failed then
      ⟨true,
       if data.status == TaskStatus.completed && onCompletePresent then some data.result else none,
       if !(data.status == TaskStatus.completed && onCompletePresent)
           && (data.status == TaskStatus.failed && onErrorPresent)
         then some (jsOrDefault data.error "Task failed") else none⟩
    else ⟨false, none, none⟩
  | .httpError code =>
    ⟨true, none,
     if onErrorPresent then some ("Failed to fetch task status: " ++ toString code) else none⟩
  | .networkError msg =>
    ⟨true, none,
     if onErrorPresent then some (msg.getD "Failed to fetch task status") else none⟩

/-- A fetch outcome is terminal when the task status is completed or failed,
or the fetch itself failed (rejected or non-ok response). -/
def isTerminalObservation : FetchOutcome → Bool
  | .success d => d.status == TaskStatus.completed || d.status == TaskStatus.failed
  | _ => true

/-- The outcome is a successfully fetched task with status completed. -/
def isCompletedSuccess : FetchOutcome → Bool
  | .success d => d.status == TaskStatus.completed
  | _ => false

/-- The outcome is a successfully fetched task with status failed, or a
fetch failure. -/
def isFailedOrThrown : FetchOutcome → Bool
  | .success d => d.status == TaskStatus.failed
  | _ => true

/-- A viewer-root request with an empty query string (shared example). -/
def reqViewer : ProxyRequest :=
  ⟨"/v1/devtools/devtools_app.html", [], "GET", none, none, none, none⟩

/-- A viewer-root request whose query string is non-empty but has no `ws`
parameter. -/
def reqViewerFoo : ProxyRequest :=
  ⟨"/v1/devtools/page/devtools_app.html", [("foo", "1")], "GET", none, none, none, none⟩

/-- A `/json` probe request carrying a page identifier. -/
def reqJsonPage : ProxyRequest :=
  ⟨"/v1/devtools/json", [("pageId", "abc")], "GET", none, none, none, none⟩

/-- A `/json` probe request carrying a page identifier that names no
existing page. -/
def reqJsonStale : ProxyRequest :=
  ⟨"/v1/devtools/json", [("pageId", "deadbeef")], "GET", none, none, none, none⟩

/-- A static-asset request below the devtools mount. -/
def reqAsset : ProxyRequest :=
  ⟨"/v1/devtools/Images/chromeSelect.png", [], "GET", none, none, none, none⟩

/-- A `/json` request whose accept header is present but empty. -/
def reqEmptyAccept : ProxyRequest :=
  ⟨"/v1/devtools/json", [], "GET", some "UA/1.0", some "", some "text/plain", none⟩

/-- Helper for the proxy theorems: the redirect condition rewritten as the
top-level `if` of the handler. -/
theorem getDevtoolsUrl_pos (debuggerUrl wsUrl : String) (req : ProxyRequest)
    (upstream : Option UpstreamResponse) (h : viewerRedirectCond req = true) :
    getDevtoolsUrl debuggerUrl wsUrl req upstream =
      HandlerResult.redirect (requestUrl req ++ "?ws=" ++ replaceFirst wsUrl "ws:" "") := by
  unfold getDevtoolsUrl
  rw [if_pos h]

/-- Helper: the non-redirect shape of the handler. -/
theorem getDevtoolsUrl_neg (debuggerUrl wsUrl : String) (req : ProxyRequest)
    (upstream : Option UpstreamResponse) (h : viewerRedirectCond req = false) :
    getDevtoolsUrl debuggerUrl wsUrl req upstream =
      match upstream with
      | some u =>
          HandlerResult.proxied (mkOutbound debuggerUrl req) u.status
            (jsOrDefault u.contentType "text/html") (relayedBody u.body)
      | none =>
          HandlerResult.proxyError (mkOutbound debuggerUrl req) 500
            (strToBytes "Proxy error") := by
  unfold getDevtoolsUrl
  rw [if_neg (by simp [h])]

/-- Stripping the `ws:` scheme from a `ws://` URL leaves the
scheme-relative remainder. -/
theorem replaceFirst_ws (s : String) : replaceFirst ("ws://" ++ s) "ws:" "" = "//" ++ s := by
  unfold replaceFirst
  rw [if_neg (by decide)]
  have hd : ("ws://" ++ s).data = ('w' :: ['s', ':']) ++ ('/' :: '/' :: s.data) := by
    rw [String.data_append]
    rfl
  have hp : ("ws:" : String).data = 'w' :: ['s', ':'] := rfl
  have hq : ("" : String).data = [] := rfl
  rw [hp, hq, hd, replaceFirstAux_append]
  apply String.ext
  rw [String.data_append]
  rfl

/-- Claim C1 (amended): a devtools proxy request whose raw URL ends with
`devtools_app.html` and whose query string serializes to the empty string is
answered with a redirect to the same path with a `ws` query parameter
appended, and is not forwarded upstream. -/
theorem c1_redirect_on_empty_query (debuggerUrl wsUrl : String) (req : ProxyRequest)
    (upstream : Option UpstreamResponse) (h : viewerRedirectCond req = true) :
    getDevtoolsUrl debuggerUrl wsUrl req upstream =
      HandlerResult.redirect (requestUrl req ++ "?ws=" ++ replaceFirst wsUrl "ws:" "") :=
  getDevtoolsUrl_pos debuggerUrl wsUrl req upstream h

/-- Claim C1, counterexample to the claim as stated: a request whose path
ends with `devtools_app.html` and whose query string has no `ws` parameter
(it has `foo=1`) is not redirected — the handler compares the raw URL
(which then ends in `?foo=1`) and requires the whole query string to be
empty, so the request is forwarded upstream instead. -/
theorem c1_counterexample :
    strEndsWith reqViewerFoo.path "devtools_app.html" = true ∧
    reqViewerFoo.query.lookup "ws" = none ∧
    isRedirect (getDevtoolsUrl "http://127.0.0.1:9222/"
      "ws://127.0.0.1:9222/devtools/page/abc" reqViewerFoo
      (some ⟨200, some "text/html", []⟩)) = false := by
  refine ⟨by decide, by decide, by decide⟩

/-- Claim C1, witness: the amended theorem at a concrete viewer-root
request with an empty query. -/
theorem c1_witness :
    viewerRedirectCond reqViewer = true ∧
    getDevtoolsUrl "http://127.0.0.1:9222/" "ws://127.0.0.1:9222/devtools/page/abc"
        reqViewer none =
      HandlerResult.redirect (requestUrl reqViewer ++ "?ws=" ++
        replaceFirst "ws://127.0.0.1:9222/devtools/page/abc" "ws:" "") :=
  ⟨by decide,
   c1_redirect_on_empty_query "http://127.0.0.1:9222/"
     "ws://127.0.0.1:9222/devtools/page/abc" reqViewer none (by decide)⟩

/-- Claim C2: when the upstream fetch of a non-redirect devtools proxy
request fails, the handler catches the error and replies with status 500 and
the body "Proxy error"; the handler returns a reply rather than letting the
error escape, so the serving process does not crash. -/
theorem c2_upstream_failure_500 (debuggerUrl wsUrl : String) (req : ProxyRequest)
    (h : viewerRedirectCond req = false) :
    getDevtoolsUrl debuggerUrl wsUrl req none =
      HandlerResult.proxyError (mkOutbound debuggerUrl req) 500
        (strToBytes "Proxy error") :=
  getDevtoolsUrl_neg debuggerUrl wsUrl req none h

/-- Claim C2, witness: the theorem at a concrete request whose upstream
fetch throws. -/
theorem c2_witness :
    getDevtoolsUrl "http://127.0.0.1:9222/" "ws://127.0.0.1:9222/devtools/page/abc"
        reqJsonPage none =
      HandlerResult.proxyError (mkOutbound "http://127.0.0.1:9222/" reqJsonPage) 500
        (strToBytes "Proxy error") :=
  c2_upstream_failure_500 "http://127.0.0.1:9222/"
    "ws://127.0.0.1:9222/devtools/page/abc" reqJsonPage (by decide)

/-- A present string survives a JS `||` whose default is the empty string. -/
theorem jsOrDefault_some_empty (s : String) : jsOrDefault (some s) "" = s := by
  show (if (s == "") = true then "" else s) = s
  by_cases hs : (s == "") = true
  · rw [if_pos hs]
    exact (beq_iff_eq.mp hs).symm
  · rw [if_neg hs]

/-- A present non-empty string survives a JS `||` fallback. -/
theorem jsOrDefault_some_ne (s d : String) (h : s ≠ "") : jsOrDefault (some s) d = s := by
  show (if (s == "") = true then d else s) = s
  rw [if_neg (by simpa using h)]

/-- Claim C3 (amended): for a non-redirect request whose content-type,
accept and user-agent headers are present — the accept value non-empty —
and whose upstream response carries a non-empty content-type, the outbound
request carries the inbound method, those three header values and the
inbound body verbatim, and the reply carries the upstream status code and
content-type unchanged. The source's JS `||` fallbacks fire on absent and
on empty values alike: a present-but-empty accept goes out as "*/*" and an
empty upstream content-type is replied as "text/html" (the user-agent and
request content-type fallbacks default to "", so those two are verbatim for
every present value). -/
theorem c3_forward_verbatim (debuggerUrl wsUrl : String) (req : ProxyRequest)
    (u : UpstreamResponse) (ua ac ct uct : String)
    (hua : req.userAgent = some ua) (hac : req.accept = some ac) (hacne : ac ≠ "")
    (hct : req.contentType = some ct)
    (huct : u.contentType = some uct) (huctne : uct ≠ "")
    (h : viewerRedirectCond req = false) :
    getDevtoolsUrl debuggerUrl wsUrl req (some u) =
      HandlerResult.proxied
        ⟨debuggerUrl ++ replaceFirst (requestUrl req) "/v1/devtools/" "",
         req.method, ua, ac, ct, req.body⟩
        u.status uct (relayedBody u.body) := by
  rw [getDevtoolsUrl_neg debuggerUrl wsUrl req (some u) h]
  simp [mkOutbound, hua, hac, hct, huct, jsOrDefault_some_empty,
    jsOrDefault_some_ne ac "*/*" hacne, jsOrDefault_some_ne uct "text/html" huctne]

/-- Claim C3, counterexample to the claim as stated: a non-redirect request
whose accept header is present but empty is forwarded with accept "*/*",
and an upstream response whose content-type is present but empty is replied
with content-type "text/html" — neither value is carried verbatim. -/
theorem c3_counterexample :
    reqEmptyAccept.accept = some "" ∧
    getDevtoolsUrl "http://127.0.0.1:9222/" "ws://127.0.0.1:9222/devtools/page/abc"
        reqEmptyAccept (some ⟨200, some "", []⟩) =
      HandlerResult.proxied
        ⟨"http://127.0.0.1:9222/json", "GET", "UA/1.0", "*/*", "text/plain", none⟩
        200 "text/html" [] ∧
    (("*/*" : String) == "") = false ∧
    (("text/html" : String) == "") = false := by
  refine ⟨by decide, by decide, by decide, by decide⟩

/-- Claim C3, witness: the amended theorem at a concrete request with all
three headers present (accept non-empty) and an upstream response with a
non-empty content-type. -/
theorem c3_witness :
    getDevtoolsUrl "http://127.0.0.1:9222/" "ws://127.0.0.1:9222/devtools/page/abc"
        ⟨"/v1/devtools/json/new", [], "PUT", some "UA/1.0", some "application/json",
          some "text/plain", some "hello"⟩
        (some ⟨201, some "application/json", [0x68, 0x69]⟩) =
      HandlerResult.proxied
        ⟨"http://127.0.0.1:9222/" ++
            replaceFirst (requestUrl ⟨"/v1/devtools/json/new", [], "PUT", some "UA/1.0",
              some "application/json", some "text/plain", some "hello"⟩)
            "/v1/devtools/" "",
         "PUT", "UA/1.0", "application/json", "text/plain", some "hello"⟩
        201 "application/json"
        (relayedBody [0x68, 0x69]) :=
  c3_forward_verbatim "http://127.0.0.1:9222/" "ws://127.0.0.1:9222/devtools/page/abc"
    ⟨"/v1/devtools/json/new", [], "PUT", some "UA/1.0", some "application/json",
      some "text/plain", some "hello"⟩
    ⟨201, some "application/json", [0x68, 0x69]⟩
    "UA/1.0" "application/json" "text/plain" "application/json"
    rfl rfl (by decide) rfl rfl (by decide) (by decide)

/-- Claim C4 (amended): every non-redirect devtools proxy request — with or
without a page identifier — is fetched from the process-wide debugger HTTP
base URL with the `/v1/devtools/` mount prefix stripped from the inbound
URL; the per-page debugger WebSocket URL (the `wsUrl` argument) never
determines the fetch target. -/
theorem c4_target_http_base (debuggerUrl wsUrl : String) (req : ProxyRequest)
    (upstream : Option UpstreamResponse) (h : viewerRedirectCond req = false) :
    targetOf (getDevtoolsUrl debuggerUrl wsUrl req upstream) =
      some (debuggerUrl ++ replaceFirst (requestUrl req) "/v1/devtools/" "") := by
  rw [getDevtoolsUrl_neg debuggerUrl wsUrl req upstream h]
  cases upstream <;> simp [targetOf, mkOutbound]

/-- Claim C4, counterexample to the claim as stated: a proxied request that
carries a page identifier is fetched from the debugger HTTP base, not from
that page's per-target debugger WebSocket URL. -/
theorem c4_counterexample :
    reqJsonPage.query.lookup "pageId" = some "abc" ∧
    targetOf (getDevtoolsUrl "http://127.0.0.1:9222/"
        "ws://127.0.0.1:9222/devtools/page/abc" reqJsonPage
        (some ⟨200, some "application/json", []⟩)) =
      some "http://127.0.0.1:9222/json?pageId=abc" ∧
    ("http://127.0.0.1:9222/json?pageId=abc" ==
      "ws://127.0.0.1:9222/devtools/page/abc") = false := by
  refine ⟨by decide, by decide, by decide⟩

/-- Claim C4, witness: the amended theorem at a concrete request with a
page identifier. -/
theorem c4_witness :
    targetOf (getDevtoolsUrl "http://127.0.0.1:9222/"
        "ws://127.0.0.1:9222/devtools/page/abc" reqJsonPage
        (some ⟨200, some "application/json", []⟩)) =
      some ("http://127.0.0.1:9222/" ++
        replaceFirst (requestUrl reqJsonPage) "/v1/devtools/" "") :=
  c4_target_http_base "http://127.0.0.1:9222/" "ws://127.0.0.1:9222/devtools/page/abc"
    reqJsonPage (some ⟨200, some "application/json", []⟩) (by decide)

/-- Claim C5: when the debugger WebSocket URL supplied to the handler is the
spec-modelled `getDebuggerWsUrl` — the page's debugger WebSocket URL with
host and port rewritten to the externally visible address — the viewer-root
redirect appends a `ws` parameter equal to that rewritten URL with its `ws:`
scheme stripped: external host and port, page path preserved. -/
theorem c5_ws_param_external (debuggerUrl externalHostPort pagePath : String)
    (req : ProxyRequest) (upstream : Option UpstreamResponse)
    (h : viewerRedirectCond req = true) :
    getDevtoolsUrl debuggerUrl (getDebuggerWsUrl externalHostPort pagePath) req upstream =
      HandlerResult.redirect
        (requestUrl req ++ "?ws=" ++ ("//" ++ (externalHostPort ++ pagePath))) := by
  rw [getDevtoolsUrl_pos debuggerUrl (getDebuggerWsUrl externalHostPort pagePath)
    req upstream h]
  unfold getDebuggerWsUrl
  rw [replaceFirst_ws]

/-- Claim C5, witness: the theorem at a concrete viewer-root request and a
concrete external address. -/
theorem c5_witness :
    getDevtoolsUrl "http://127.0.0.1:9222/"
        (getDebuggerWsUrl "198.51.100.7:3000" "/devtools/page/abc") reqViewer none =
      HandlerResult.redirect
        "/v1/devtools/devtools_app.html?ws=//198.51.100.7:3000/devtools/page/abc" :=
  (c5_ws_param_external "http://127.0.0.1:9222/" "198.51.100.7:3000" "/devtools/page/abc"
    reqViewer none (by decide)).trans (by decide)

/-- Claim C6: the handler relays the upstream body through
`await response.text()` followed by `reply.send`, i.e. a lossy UTF-8 decode
and re-encode; on the one-byte body `0xFF` (not valid UTF-8, as in any
binary asset) the client receives the replacement character bytes
`EF BF BD` instead of the original byte, so the relay is not byte-for-byte. -/
theorem c6_binary_body_corrupted :
    bodyOf (getDevtoolsUrl "http://127.0.0.1:9222/"
        "ws://127.0.0.1:9222/devtools/page/abc" reqAsset
        (some ⟨200, some "image/png", [0xFF]⟩)) = some [0xEF, 0xBF, 0xBD] ∧
    (([0xEF, 0xBF, 0xBD] : List Nat) == [0xFF]) = false := by
  refine ⟨by decide, by decide⟩

/-- Claim C7 (amended): the handler performs no page-identifier validation
and never itself produces a 404 — a 404 reaches the client only when the
upstream fetch returned one. -/
theorem c7_no_handler_404 (debuggerUrl wsUrl : String) (req : ProxyRequest)
    (upstream : Option UpstreamResponse)
    (h : statusOf (getDevtoolsUrl debuggerUrl wsUrl req upstream) = some 404) :
    ∃ u, upstream = some u ∧ u.status = 404 := by
  by_cases hc : viewerRedirectCond req = true
  · rw [getDevtoolsUrl_pos debuggerUrl wsUrl req upstream hc] at h
    simp [statusOf] at h
  · rw [getDevtoolsUrl_neg debuggerUrl wsUrl req upstream (by simpa using hc)] at h
    cases upstream with
    | none => simp [statusOf] at h
    | some u =>
      simp only [statusOf, Option.some.injEq] at h
      exact ⟨u, rfl, h⟩

/-- Claim C7, counterexample to the claim as stated: a request whose page
identifier names no existing page (the handler consults no page registry,
so page existence cannot influence it) is still proxied, and when the
upstream `/json` endpoint answers 200 the client receives 200, not 404. -/
theorem c7_counterexample :
    reqJsonStale.query.lookup "pageId" = some "deadbeef" ∧
    statusOf (getDevtoolsUrl "http://127.0.0.1:9222/"
        "ws://127.0.0.1:9222/devtools/page/deadbeef" reqJsonStale
        (some ⟨200, some "application/json", []⟩)) = some 200 := by
  refine ⟨by decide, by decide⟩

/-- Claim C7, witness: the amended theorem at a concrete run whose upstream
did return 404. -/
theorem c7_witness :
    ∃ u, (some (⟨404, some "text/html", []⟩ : UpstreamResponse) = some u ∧
      u.status = 404) :=
  c7_no_handler_404 "http://127.0.0.1:9222/" "ws://127.0.0.1:9222/devtools/page/deadbeef"
    reqJsonStale (some ⟨404, some "text/html", []⟩) (by decide)

/-- Claim C8: `resolveSchemaRef` is total (it is defined here by
well-founded recursion on `rsMeasure`, so it terminates on every input,
circular `$ref` chains included), and when the schema's component `$ref` is
already in the visited set the function returns the schema with its ref
unresolved instead of recursing — the circular-reference cutoff, which
prevents any `$ref` path from being expanded twice on one recursion branch. -/
theorem c8_resolveSchemaRef_visited_cutoff (s : JSchema) (api : Option OpenAPISchema)
    (visited : List String) (r : String)
    (h1 : s.ref = some r) (h2 : strStartsWith r refPfx = true)
    (h3 : visited.contains r = true) :
    resolveSchemaRef s api visited = s := by
  have hrc : refComponentOf s = some r := by
    unfold refComponentOf
    rw [h1]
    simp [h2]
  cases api with
  | none => rw [resolveSchemaRef]
  | some a =>
    rw [resolveSchemaRef]
    split
    · next refPath heq =>
      have hrr : refPath = r := by
        have := heq.symm.trans hrc
        exact Option.some.injEq _ _ ▸ this
      subst hrr
      rw [dif_pos h3]
    · next heq => rw [heq] at hrc; cases hrc

/-- Claim C8, witness: the cutoff theorem at a concrete self-referential
component schema whose ref is already in the visited set. -/
theorem c8_witness :
    resolveSchemaRef (JSchema.mk (some "#/components/schemas/A") none none none none none)
      (some ⟨some ⟨some [("A",
        JSchema.mk (some "#/components/schemas/A") none none none none none)]⟩⟩)
      ["#/components/schemas/A"] =
      JSchema.mk (some "#/components/schemas/A") none none none none none :=
  c8_resolveSchemaRef_visited_cutoff
    (JSchema.mk (some "#/components/schemas/A") none none none none none)
    (some ⟨some ⟨some [("A",
      JSchema.mk (some "#/components/schemas/A") none none none none none)]⟩⟩)
    ["#/components/schemas/A"] "#/components/schemas/A"
    rfl (by decide) (by decide)

/-- Claim C9: the parsed environment has exactly the keys `VITE_API_URL`,
`VITE_WS_URL` and `AUTOMATION_API_URL`, missing ones defaulting to "/api",
"/ws" and "http://127.0.0.1:8000"; any other input key — in particular
`VITE_AUTOMATION_API_URL`, which the session playground reads — is absent
from the parsed result. -/
theorem c9_env_schema (input : List (String × String)) :
    (parseEnv input).map Prod.fst = ["VITE_API_URL", "VITE_WS_URL", "AUTOMATION_API_URL"] ∧
    (parseEnv input).lookup "VITE_API_URL" =
      some ((input.lookup "VITE_API_URL").getD "/api") ∧
    (parseEnv input).lookup "VITE_WS_URL" =
      some ((input.lookup "VITE_WS_URL").getD "/ws") ∧
    (parseEnv input).lookup "AUTOMATION_API_URL" =
      some ((input.lookup "AUTOMATION_API_URL").getD "http://127.0.0.1:8000") ∧
    ∀ k, k ≠ "VITE_API_URL" → k ≠ "VITE_WS_URL" → k ≠ "AUTOMATION_API_URL" →
      (parseEnv input).lookup k = none := by
  refine ⟨rfl, rfl, rfl, rfl, ?_⟩
  intro k h1 h2 h3
  have b1 : (k == "VITE_API_URL") = false := beq_eq_false_iff_ne.mpr h1
  have b2 : (k == "VITE_WS_URL") = false := beq_eq_false_iff_ne.mpr h2
  have b3 : (k == "AUTOMATION_API_URL") = false := beq_eq_false_iff_ne.mpr h3
  simp [parseEnv, List.lookup, b1, b2, b3]

/-- Claim C9, witness: the theorem's stripping clause at a concrete
environment that does set `VITE_AUTOMATION_API_URL` — the parsed result
drops it. -/
theorem c9_witness :
    (parseEnv [("VITE_AUTOMATION_API_URL", "http://127.0.0.1:8000"),
      ("FOO", "1")]).lookup "VITE_AUTOMATION_API_URL" = none :=
  (c9_env_schema [("VITE_AUTOMATION_API_URL", "http://127.0.0.1:8000"), ("FOO", "1")]).2.2.2.2
    "VITE_AUTOMATION_API_URL" (by decide) (by decide) (by decide)

/-- Claim C10: one polling observation stops the interval whenever it is
terminal (task completed or failed, or the fetch itself threw or returned a
non-ok response), `onComplete` is called only on a completed task, and
`onError` is called only on a failed task or a fetch failure. -/
theorem c10_poller_terminal (onCompletePresent onErrorPresent : Bool)
    (outcome : FetchOutcome) :
    (isTerminalObservation outcome = true →
      (fetchTaskStatus onCompletePresent onErrorPresent outcome).stopped = true) ∧
    ((fetchTaskStatus onCompletePresent onErrorPresent outcome).completeCall.isSome = true →
      isCompletedSuccess outcome = true) ∧
    ((fetchTaskStatus onCompletePresent onErrorPresent outcome).errorCall.isSome = true →
      isFailedOrThrown outcome = true) := by
  rcases outcome with msg | code | d
  · simp [fetchTaskStatus, isTerminalObservation, isCompletedSuccess, isFailedOrThrown]
  · simp [fetchTaskStatus, isTerminalObservation, isCompletedSuccess, isFailedOrThrown]
  · rcases d with ⟨st, res, err⟩
    cases st <;> cases onCompletePresent <;> cases onErrorPresent <;>
      simp [fetchTaskStatus, isTerminalObservation, isCompletedSuccess, isFailedOrThrown,
        beq_iff_eq]

/-- Claim C10, witness: the theorem's stop clause at a concrete completed
observation. -/
theorem c10_witness :
    (fetchTaskStatus true true
      (FetchOutcome.success ⟨TaskStatus.completed, some "r", none⟩)).stopped = true :=
  (c10_poller_terminal true true
    (FetchOutcome.success ⟨TaskStatus.completed, some "r", none⟩)).1 (by decide)

end SteelBrowser
